import Mathlib

/-!
Verification of the configuration-synthesis core of the gateway-ng
controller (`src/service.rs`, `src/threescale_auth.rs`) and of its
data-plane mapping-rule engine (`wasm_filter/src/config.rs`).

Shallow embedding conventions:
* JSON documents are modelled at the value level by the inductive `Json`
  below; `serde_json::to_string` / `from_str` are modelled as the identity
  between a value and the text it prints to (the text codec of serde_json
  is an external bijection on well-formed values, so a wire string is
  represented by its parsed tree).  A text that is not valid JSON at all is
  represented by `none : Option Json`.
* Rust `u32` fields (`id`, `delta`) are `Nat`; the program performs no
  arithmetic on them (they are only formatted, stored and compared), so no
  wrap-around is reachable.
* Fallible Rust code (`Result`, `?`, panicking `unwrap`) is `Except String`;
  a panic is a propagated error.
* `std::collections::HashMap<String, u32>` is an association list whose
  `insert` replaces the value of an existing key in place.
-/

/-- `serde_json::Value` at tree level. `num` carries an integer: the program
under verification never produces or consumes a fractional number. -/
inductive Json where
  | null : Json
  | bool (b : Bool) : Json
  | num (n : Int) : Json
  | str (s : String) : Json
  | arr (xs : List Json) : Json
  | obj (fields : List (String × Json)) : Json

/-- Field lookup in a JSON object (serde resolves struct fields by name;
a serialized struct never repeats a key, so first match suffices). -/
def Json.field : Json → String → Option Json
  | .obj fs, k => (fs.find? (fun p => p.1 == k)).map (fun p => p.2)
  | _, _ => none

/-- serde deserialization of `String`: only a JSON string is accepted. -/
def Json.asString : Json → Option String
  | .str s => some s
  | _ => none

/-- serde deserialization of `u32`: an integer in `[0, 2^32)`. -/
def Json.asU32 : Json → Option Nat
  | .num n => if 0 ≤ n ∧ n < 4294967296 then some n.toNat else none
  | _ => none

/-- serde deserialization of a JSON array. -/
def Json.asArray : Json → Option (List Json)
  | .arr xs => some xs
  | _ => none

namespace WasmFilter

/-- `wasm_filter/src/config.rs` lines 5-11: the data-plane `MappingRule`. -/
structure MappingRule where
  pattern : String
  http_method : String
  metric_system_name : String
  delta : Nat
deriving DecidableEq

/-- `config.rs` lines 13-31, `MappingRule::matches`: exact string equality
on the method, then exact string equality of `pattern` against the path. -/
def MappingRule.matches (r : MappingRule) (method path : String) : Bool :=
  if r.http_method ≠ method then false
  else if r.pattern ≠ path then false
  else true

/-- `config.rs` lines 33-40: the data-plane `Service`.  Note `policies`
is declared `Vec<std::string::String>` in this crate. -/
structure Service where
  id : Nat
  hosts : List String
  policies : List String
  target_domain : String
  proxy_rules : List MappingRule
deriving DecidableEq

/-- `HashMap::insert`: replace the value of an existing key, else add. -/
def insertMetric : List (String × Nat) → String → Nat → List (String × Nat)
  | [], k, v => [(k, v)]
  | p :: rest, k, v =>
      if p.1 = k then (k, v) :: rest else p :: insertMetric rest k v

/-- Lookup in the metrics map (`HashMap::get`). -/
def lookupMetric : List (String × Nat) → String → Option Nat
  | [], _ => none
  | p :: rest, k => if p.1 = k then some p.2 else lookupMetric rest k

/-- The body of the `for` loop of `Service::match_mapping_rule`
(`config.rs` lines 49-54): a matching rule inserts its delta under its
metric name. -/
def collectStep (method path : String) (m : List (String × Nat))
    (r : MappingRule) : List (String × Nat) :=
  if r.matches method path then insertMetric m r.metric_system_name r.delta else m

/-- The metrics map accumulated over all rules in declaration order. -/
def collectMetrics (rules : List MappingRule) (method path : String) :
    List (String × Nat) :=
  rules.foldl (collectStep method path) []

/-- One hexadecimal digit, lowercase, as serde_json prints it. -/
def hexDigitChar (n : Nat) : String :=
  String.singleton (Char.ofNat (if n < 10 then 48 + n else 87 + n))

/-- serde_json string escaping of one character. -/
def escChar (c : Char) : String :=
  let n := c.toNat
  if n = 34 then "\\\""
  else if n = 92 then "\\\\"
  else if n = 8 then "\\b"
  else if n = 9 then "\\t"
  else if n = 10 then "\\n"
  else if n = 12 then "\\f"
  else if n = 13 then "\\r"
  else if n < 32 then "\\u00" ++ hexDigitChar (n / 16) ++ hexDigitChar (n % 16)
  else String.singleton c

/-- serde_json string escaping. -/
def escapeJsonString (s : String) : String :=
  String.join (s.data.map escChar)

/-- `serde_json::to_string` of a `HashMap<String, u32>`, in the map's
iteration order (our model iterates in insertion order); total, which is
why the `unwrap` in `match_mapping_rule` can never panic. -/
def renderMetrics (m : List (String × Nat)) : String :=
  "\x7b" ++
    String.intercalate ","
      (m.map (fun p => "\"" ++ escapeJsonString p.1 ++ "\":" ++ toString p.2)) ++
  "\x7d"

/-- `config.rs` lines 43-59, `Service::match_mapping_rule`. -/
def Service.match_mapping_rule (s : Service) (method path : String) :
    Bool × String :=
  let metrics := collectMetrics s.proxy_rules method path
  (decide (0 < metrics.length), renderMetrics metrics)

/-- serde's derived `Deserialize` for the data-plane `MappingRule`: all four
fields must be present with the declared types; unknown fields are ignored. -/
def parseMappingRule (j : Json) : Option MappingRule := do
  let patJ ← j.field "pattern"
  let pat ← patJ.asString
  let methodJ ← j.field "http_method"
  let method ← methodJ.asString
  let nameJ ← j.field "metric_system_name"
  let name ← nameJ.asString
  let deltaJ ← j.field "delta"
  let delta ← deltaJ.asU32
  some ⟨pat, method, name, delta⟩

/-- serde's derived `Deserialize` for the data-plane `Service`
(`config.rs` lines 33-40): `policies` must be an array of JSON strings,
because the field is declared `Vec<std::string::String>`. -/
def parseService (j : Json) : Option Service := do
  let idJ ← j.field "id"
  let id ← idJ.asU32
  let hostsJ ← j.field "hosts"
  let hostsA ← hostsJ.asArray
  let hosts ← hostsA.mapM Json.asString
  let polJ ← j.field "policies"
  let polA ← polJ.asArray
  let policies ← polA.mapM Json.asString
  let tdJ ← j.field "target_domain"
  let target_domain ← tdJ.asString
  let prJ ← j.field "proxy_rules"
  let prA ← prJ.asArray
  let proxy_rules ← prA.mapM parseMappingRule
  some ⟨id, hosts, policies, target_domain, proxy_rules⟩

/-- `serde_json::from_str::<Service>` on a configuration text: `none` input
models a text that is not valid JSON, `some j` a text printing the tree `j`. -/
def parseServiceConfig (input : Option Json) : Option Service :=
  input.bind parseService

/-- Everything an `import_config` call leaves behind (`config.rs` 75-90):
the value returned to the caller (an `Except.error` models the `unwrap`
panic on a parse failure), the content of the thread-local `CONFIG` cell
afterwards, and whether the `try_borrow_mut` error branch merely logged. -/
structure ImportOutcome where
  result : Except String Service
  newConfig : Service
  loggedBorrowError : Bool

/-- `config.rs` lines 75-90, `import_config`, with the `CONFIG` cell passed
explicitly as `current` and the borrow state of the cell as `borrowHeld`.
The source first parses with `.unwrap()` (a parse failure panics before the
cell is touched), then `try_borrow_mut`: on `Err` it only logs and leaves
the cell unchanged, on `Ok` it replaces the cell; either way the parsed
service is returned. -/
def import_config (borrowHeld : Bool) (input : Option Json)
    (current : Service) : ImportOutcome :=
  match parseServiceConfig input with
  | none =>
      ⟨.error "import_config: serde_json::from_str failed (unwrap panic)",
       current, false⟩
  | some service =>
      if borrowHeld then ⟨.ok service, current, true⟩
      else ⟨.ok service, service, false⟩

end WasmFilter

namespace Controller

/-- `src/service.rs` lines 48-54: the control-plane mapping rule (named
`MappingRules` in this crate, same four fields as the data-plane one). -/
structure MappingRules where
  pattern : String
  http_method : String
  metric_system_name : String
  delta : Nat

/-- `src/service.rs` lines 56-60: an opaque named policy configuration. -/
structure PoliciyConfig where
  name : String
  configuration : Json

/-- `src/threescale_auth.rs` lines 17-23: the billing backend descriptor.
`url::Url` serializes as its string; `other` is the `#[serde(flatten)]`
map of extra fields. -/
structure Backend where
  cluster_name : String
  url : String
  other : List (String × Json)

/-- `src/threescale_auth.rs` lines 37-42. -/
structure WasmConfig where
  backend : Backend
  other : List (String × Json)

/-- `src/threescale_auth.rs` lines 31-35. -/
structure ThreescaleAuth where
  path : String
  wasm_config : WasmConfig

/-- `src/service.rs` lines 62-71: the control-plane `Service`. -/
structure Service where
  id : Nat
  hosts : List String
  policies : List PoliciyConfig
  target_domain : String
  proxy_rules : List MappingRules
  oidc_issuer : Option String
  auth_config : Option ThreescaleAuth

/-- serde's derived `Serialize` for `MappingRules`. -/
def serializeMappingRules (r : MappingRules) : Json :=
  .obj [("pattern", .str r.pattern), ("http_method", .str r.http_method),
        ("metric_system_name", .str r.metric_system_name),
        ("delta", .num (Int.ofNat r.delta))]

/-- serde's derived `Serialize` for `PoliciyConfig`: a JSON object. -/
def serializePoliciyConfig (p : PoliciyConfig) : Json :=
  .obj [("name", .str p.name), ("configuration", p.configuration)]

/-- serde's derived `Serialize` for `Backend` (the flattened extras follow
the declared fields). -/
def serializeBackend (b : Backend) : Json :=
  .obj ([("cluster_name", .str b.cluster_name), ("url", .str b.url)] ++ b.other)

/-- serde's derived `Serialize` for `WasmConfig`. -/
def serializeWasmConfig (w : WasmConfig) : Json :=
  .obj (("backend", serializeBackend w.backend) :: w.other)

/-- serde's derived `Serialize` for `ThreescaleAuth`. -/
def serializeThreescaleAuth (a : ThreescaleAuth) : Json :=
  .obj [("path", .str a.path), ("wasm_config", serializeWasmConfig a.wasm_config)]

/-- serde serialization of an `Option`: `None` is `null`. -/
def serializeOpt (f : α → Json) : Option α → Json
  | none => .null
  | some x => f x

/-- serde's derived `Serialize` for the control-plane `Service`
(`src/service.rs` lines 62-71): the JSON document that
`serde_json::to_string(&self.clone())` at `src/service.rs` line 165 prints.
Note `policies` serializes to an array of objects. -/
def Service.toJson (s : Service) : Json :=
  .obj [("id", .num (Int.ofNat s.id)),
        ("hosts", .arr (s.hosts.map Json.str)),
        ("policies", .arr (s.policies.map serializePoliciyConfig)),
        ("target_domain", .str s.target_domain),
        ("proxy_rules", .arr (s.proxy_rules.map serializeMappingRules)),
        ("oidc_issuer", serializeOpt Json.str s.oidc_issuer),
        ("auth_config", serializeOpt serializeThreescaleAuth s.auth_config)]

/-- A `String` payload handed to the Resource Encoder's `encode`: either a
plain string, or a JSON text represented by the value it prints
(`serde_json::to_string` / `to_string_pretty` output). -/
inductive StrVal where
  | plain (s : String) : StrVal
  | jsonText (j : Json) : StrVal

/-- `prost_types::Any` wrapping an encoded `google.protobuf.StringValue`.
The byte encoding produced by `encode` (an external collaborator, injective
on messages) is kept as the message itself. -/
structure StrAny where
  typeUrl : String
  value : StrVal

/-- `RemoteDataSource` with its `HttpUri` (uri, fixed timeout, upstream
cluster) and the `sha256` content hash. -/
structure RemoteDataSource where
  uri : String
  timeoutSeconds : Int
  upstreamCluster : String
  sha256 : String

/-- `envoy.extensions.wasm.v3.VmConfig` as the source populates it. -/
structure VmConfig where
  vm_id : String
  runtime : String
  configuration : Option StrAny
  code : Option RemoteDataSource

/-- `envoy.extensions.wasm.v3.PluginConfig` as the source populates it. -/
structure PluginConfig where
  name : String
  root_id : String
  vm : Option VmConfig
  configuration : Option StrAny

/-- `envoy.extensions.filters.http.wasm.v3.Wasm`. -/
structure Wasm where
  config : Option PluginConfig

/-- The JWT-authentication filter descriptor returned by the Identity
Discovery Adapter (`src/oidc.rs`, an external collaborator): opaque to the
export engine, which only wraps and encodes it. -/
structure JwtAuthentication where
  descriptor : String

/-- A message wrapped into an HTTP filter's typed config. -/
inductive HttpMsg where
  | router : HttpMsg
  | jwtAuthn (j : JwtAuthentication) : HttpMsg
  | wasm (w : Wasm) : HttpMsg

/-- `prost_types::Any` around an HTTP-filter message. -/
structure HttpAny where
  typeUrl : String
  value : HttpMsg

/-- `HttpFilter` of the HTTP connection manager. -/
structure HttpFilter where
  name : String
  typedConfig : Option HttpAny

/-- The single catch-all route: a `/` prefix match routed to a cluster. -/
structure RouteEntry where
  prefixPath : String
  routeCluster : String

/-- `VirtualHost` with its match domains and routes. -/
structure VirtualHost where
  name : String
  domains : List String
  routes : List RouteEntry

/-- `RouteConfiguration`. -/
structure RouteConfiguration where
  name : String
  virtual_hosts : List VirtualHost

/-- `HttpConnectionManager` as the source populates it. -/
structure HttpConnectionManager where
  statPrefixStr : String
  codecType : Int
  http_filters : List HttpFilter
  route_config : RouteConfiguration

/-- `prost_types::Any` around the connection manager. -/
structure NetAny where
  typeUrl : String
  value : HttpConnectionManager

/-- A network filter of the listener's filter chain. -/
structure NetFilter where
  name : String
  typedConfig : Option NetAny

/-- `FilterChain`. -/
structure FilterChain where
  filters : List NetFilter

/-- `Listener`: wildcard bind address, fixed port 80, filter chains. -/
structure Listener where
  name : String
  bindAddress : String
  port : Nat
  filter_chains : List FilterChain

/-- The cluster resource built by `envoy_helpers::get_envoy_cluster` from a
name and a target address. -/
structure Cluster where
  name : String
  targetAddress : String

/-- `EnvoyResource` (`src/envoy_helpers.rs`): Cluster or Listener. -/
inductive EnvoyResource where
  | cluster (c : Cluster) : EnvoyResource
  | listener (l : Listener) : EnvoyResource

/-- `EnvoyExport`: one keyed compiled resource. -/
structure EnvoyExport where
  key : String
  config : EnvoyResource

/-- The external collaborators the export engine calls, passed explicitly:
`envoy_helpers::get_envoy_cluster`, `OIDCConfig::new(issuer).export(id)`
(the Identity Discovery Adapter), the file hashing behind
`Service::get_wasm_filter_sha` (file IO plus `util::file_utils`), and
`std::path::Path::file_name`/`to_str` used by `get_wasm_filter`. -/
structure ExportEnv where
  getEnvoyCluster : String → String → Except String Cluster
  oidcExport : String → Nat → Except String (JwtAuthentication × Cluster)
  shaOfFile : String → Except String String
  pathFileName : String → Option String

/-- `WASM_FILTER_PATH` (`src/service.rs` line 46). -/
def wasmFilterPath : String := "static/filter.wasm"

def routerTypeUrl : String :=
  "type.googleapis.com/envoy.extensions.filters.http.router.v3.Router"

def wasmTypeUrl : String :=
  "type.googleapis.com/envoy.extensions.filters.http.wasm.v3.Wasm"

def jwtTypeUrl : String :=
  "type.googleapis.com/envoy.extensions.filters.http.jwt_authn.v3.JwtAuthentication"

def stringValueTypeUrl : String :=
  "type.googleapis.com/google.protobuf.StringValue"

def hcmTypeUrl : String :=
  "type.googleapis.com/envoy.extensions.filters.network.http_connection_manager.v3.HttpConnectionManager"

/-- The primary cluster key `service::id::<id>::cluster`. -/
def clusterKey (id : Nat) : String :=
  "service::id::" ++ toString id ++ "::cluster"

/-- The primary listener key `service::id::<id>::listener`. -/
def listenerKey (id : Nat) : String :=
  "service::id::" ++ toString id ++ "::listener"

/-- `Service::cluster_name` (`src/service.rs` lines 136-138). -/
def Service.cluster_name (s : Service) : String :=
  "Cluster::service::" ++ toString s.id

/-- `format!("Service::{:?}", id)` (`{:?}` on `u32` prints its digits). -/
def serviceTag (id : Nat) : String := "Service::" ++ toString id

/-- The terminal router filter (`src/service.rs` lines 147-153, 215-218). -/
def routerHttpFilter : HttpFilter :=
  ⟨"envoy.filters.http.router", some ⟨routerTypeUrl, .router⟩⟩

/-- The JWT-authentication filter entry (`src/service.rs` lines 101-108). -/
def jwtHttpFilter (j : JwtAuthentication) : HttpFilter :=
  ⟨"envoy.filters.http.jwt_authn", some ⟨jwtTypeUrl, .jwtAuthn j⟩⟩

/-- An `envoy.filters.http.wasm` filter entry wrapping a Wasm plugin
descriptor (`src/service.rs` lines 196-203 and 206-213). -/
def wasmHttpFilter (w : Wasm) : HttpFilter :=
  ⟨"envoy.filters.http.wasm", some ⟨wasmTypeUrl, .wasm w⟩⟩

/-- The bundled metering filter's plugin descriptor (`src/service.rs` lines
156-188): VM named after the service id, remote code source with the asset
hash, and the serialized `Service` itself as the VM-level configuration. -/
def meteringWasm (s : Service) (sha : String) : Wasm :=
  ⟨some ⟨serviceTag s.id, serviceTag s.id,
    some ⟨serviceTag s.id, "envoy.wasm.runtime.v8",
      some ⟨stringValueTypeUrl, .jsonText s.toJson⟩,
      some ⟨"http://control-plane-main:5001/" ++ wasmFilterPath, 100,
            "wasm_files", sha⟩⟩,
    none⟩⟩

/-- `ThreescaleAuth::cluster` (`src/threescale_auth.rs` lines 44-48):
`get_envoy_cluster(backend.cluster_name, backend.url)`. -/
def ThreescaleAuth.cluster (a : ThreescaleAuth) (env : ExportEnv) :
    Except String Cluster :=
  env.getEnvoyCluster a.wasm_config.backend.cluster_name a.wasm_config.backend.url

/-- `get_wasm_filter` (`src/threescale_auth.rs` lines 55-102): the billing
filter's plugin descriptor. -/
def get_wasm_filter (env : ExportEnv) (path : String) (auth_config : StrVal)
    (id : Nat) : Except String Wasm :=
  match env.pathFileName path with
  | none => .error ("failed to obtain file name of " ++ path)
  | some filename =>
    match env.shaOfFile path with
    | .error e => .error ("could not compute SHA-256: " ++ e)
    | .ok sha =>
      .ok ⟨some ⟨serviceTag id, serviceTag id,
        some ⟨serviceTag id, "envoy.wasm.runtime.v8",
          some ⟨stringValueTypeUrl, .plain "vm config"⟩,
          some ⟨"http://control-plane-main:5001/static/" ++ filename, 100,
                "wasm_files", sha⟩⟩,
        some ⟨stringValueTypeUrl, auth_config⟩⟩⟩

/-- `ThreescaleAuth::build_wasm` (`src/threescale_auth.rs` lines 49-53). -/
def ThreescaleAuth.build_wasm (a : ThreescaleAuth) (env : ExportEnv)
    (id : Nat) : Except String Wasm :=
  get_wasm_filter env a.path (.jsonText (serializeWasmConfig a.wasm_config)) id

/-- The optional billing filter entry of the chain. -/
def authFilterEntry : Option Wasm → List HttpFilter
  | some w => [wasmHttpFilter w]
  | none => []

/-- `Service::export_listener` (`src/service.rs` lines 144-271). -/
def Service.export_listener (s : Service) (env : ExportEnv)
    (http_filter : Option HttpFilter) : Except String Listener :=
  match env.shaOfFile wasmFilterPath with
  | .error e => .error ("could not compute SHA-256: " ++ e)
  | .ok sha =>
    match (match s.auth_config with
           | some a => (a.build_wasm env s.id).map some
           | none => .ok none) with
    | .error e => .error e
    | .ok authWasm =>
      let http_filters :=
        http_filter.toList ++ authFilterEntry authWasm ++
          [wasmHttpFilter (meteringWasm s sha), routerHttpFilter]
      let cm : HttpConnectionManager :=
        ⟨"ingress_http", 0, http_filters,
         ⟨"service_" ++ toString s.id ++ "_route",
          [⟨"service_" ++ toString s.id ++ "_vhost", s.hosts,
            [⟨"/", s.cluster_name⟩]⟩]⟩⟩
      .ok ⟨"service " ++ toString s.id, "0.0.0.0", 80,
           [⟨[⟨"envoy.filters.network.http_connection_manager",
               some ⟨hcmTypeUrl, cm⟩⟩]⟩]⟩

/-- `Service::export_clusters` (`src/service.rs` lines 140-142). -/
def Service.export_clusters (s : Service) (env : ExportEnv) :
    Except String Cluster :=
  env.getEnvoyCluster s.cluster_name s.target_domain

/-- `Service::oidc_import` (`src/service.rs` lines 74-79). -/
def Service.oidc_import (s : Service) (env : ExportEnv) :
    Option (Except String (JwtAuthentication × Cluster)) :=
  s.oidc_issuer.map (fun iss => env.oidcExport iss s.id)

/-- The auxiliary bundle entry for the identity-provider cluster. -/
def oidcEntry : Option (JwtAuthentication × Cluster) → List EnvoyExport
  | some p => [⟨p.2.name, .cluster p.2⟩]
  | none => []

/-- The auxiliary bundle entry for the billing backend cluster. -/
def authEntry : Option Cluster → List EnvoyExport
  | some ac => [⟨ac.name, .cluster ac⟩]
  | none => []

/-- `Service::export` (`src/service.rs` lines 81-134): routing cluster
entry first, then the identity-provider cluster entry if `oidc_issuer` is
set, then the billing backend cluster entry if `auth_config` is set, then
the listener entry; any step's failure aborts the whole export. -/
def Service.export (s : Service) (env : ExportEnv) :
    Except String (List EnvoyExport) :=
  match s.export_clusters env with
  | .error e =>
      .error ("failed to export cluster for service " ++ toString s.id ++ ": " ++ e)
  | .ok cluster =>
    match (match s.oidc_import env with
           | some r => r.map some
           | none => .ok none) with
    | .error e => .error e
    | .ok oidcRes =>
      match (match s.auth_config with
             | some a => (a.cluster env).map some
             | none => .ok none) with
      | .error e => .error e
      | .ok authRes =>
        match s.export_listener env (oidcRes.map (fun p => jwtHttpFilter p.1)) with
        | .error e =>
            .error ("failed to export listener for service " ++ toString s.id ++ ": " ++ e)
        | .ok listener =>
          .ok (⟨clusterKey s.id, .cluster cluster⟩ ::
            (oidcEntry oidcRes ++ authEntry authRes ++
              [⟨listenerKey s.id, .listener listener⟩]))

/-- The HTTP filter list of an exported listener: every listener the engine
produces has exactly one filter chain holding one HTTP-connection-manager
network filter. -/
def Listener.httpFilters (l : Listener) : List HttpFilter :=
  match l.filter_chains with
  | [fc] =>
    match fc.filters with
    | [f] =>
      match f.typedConfig with
      | some a => a.value.http_filters
      | none => []
    | _ => []
  | _ => []

/-- The VM-level configuration payload of a Wasm HTTP filter. -/
def HttpFilter.vmBlob (f : HttpFilter) : Option StrVal :=
  match f.typedConfig with
  | some ⟨_, .wasm w⟩ =>
    match w.config with
    | some pc =>
      match pc.vm with
      | some vc => vc.configuration.map (fun a => a.value)
      | none => none
    | none => none
  | _ => none

/-- The plugin-level configuration blob of the bundled metering filter of a
bundle: the filter just before the terminal router filter of the last
(listener) entry. -/
def bundleMeteringBlob (bundle : List EnvoyExport) : Option StrVal :=
  match bundle.getLast? with
  | some ⟨_, .listener l⟩ => (l.httpFilters.reverse.get? 1).bind HttpFilter.vmBlob
  | _ => none

/-- How many entries of a bundle carry the key `k`. -/
def countKey (bundle : List EnvoyExport) (k : String) : Nat :=
  (bundle.map EnvoyExport.key).count k

end Controller

section ConcreteInstances

open Controller

/-- Modelled from the spec: a concrete, well-behaved environment.
`getEnvoyCluster` is `envoy_helpers::get_envoy_cluster`, code of this
repository not under `src/`; per the spec the Resource Encoder "builds a
generic upstream-cluster resource from a name and a target address", so
the returned cluster carries exactly the requested name.  The identity
discovery adapter succeeds with a fixed descriptor and provider cluster,
hashing succeeds, and file-name extraction succeeds (returning its
argument — which component of the path it keeps is irrelevant to every
property below). -/
def envOk : ExportEnv :=
  ⟨fun name addr => .ok ⟨name, addr⟩,
   fun _ _ => .ok (⟨"jwt-authn-descriptor"⟩,
                   ⟨"outbound|identity-provider", "https://idp.example.com"⟩),
   fun _ => .ok "4aa61a1dd05e2bc4a08777b6f00d",
   fun p => some p⟩

/-- A billing/auth descriptor with an ordinary, non-colliding cluster name. -/
def authOkCfg : ThreescaleAuth :=
  ⟨"static/threescale_payg.wasm", ⟨⟨"threescale-backend", "http://backend:3000/", []⟩, []⟩⟩

/-- A service with both optional adapters set. -/
def svcBoth : Service :=
  ⟨42, ["api.example.com"], [], "backend.example.com",
   [⟨"/widgets", "GET", "hits", 1⟩], some "https://idp.example.com/realm", some authOkCfg⟩

/-- A service with neither optional adapter set. -/
def svcPlain : Service :=
  ⟨7, ["plain.example.com"], [], "plain-backend.example.com", [], none, none⟩

/-- A second plain service (for a separate claim's witness). -/
def svcPlain2 : Service :=
  ⟨9, ["p2.example.com"], [], "p2-backend.example.com", [], none, none⟩

/-- A third service, with both adapters (for a separate claim's witness). -/
def svcBoth2 : Service :=
  ⟨11, ["b2.example.com"], [], "b2-backend.example.com", [], some "https://idp2.example", some authOkCfg⟩

/-- A service whose billing backend cluster name collides with the primary
cluster key of service 1 — a legal configuration value, since
`Backend::cluster_name` is an arbitrary string read from configuration. -/
def svcCollide1 : Service :=
  ⟨1, [], [], "backend.example.com", [], none,
   some ⟨"static/threescale_payg.wasm",
         ⟨⟨"service::id::1::cluster", "http://backend:3000/", []⟩, []⟩⟩⟩

/-- The same collision for service 2 (used by a different claim). -/
def svcCollide2 : Service :=
  ⟨2, [], [], "backend.example.com", [], none,
   some ⟨"static/threescale_payg.wasm",
         ⟨⟨"service::id::2::cluster", "http://backend:3000/", []⟩, []⟩⟩⟩

/-- A service with one (non-empty) policy entry and one proxy rule: the
round-trip failure witness for the export/import handshake. -/
def svcPolicy : Service :=
  ⟨3, ["api.example.com"], [⟨"cors", Json.null⟩], "backend.example.com",
   [⟨"/widgets", "GET", "hits", 1⟩], none, none⟩

/-- `svcPolicy` with its policies list emptied. -/
def svcNoPolicy : Service :=
  ⟨3, ["api.example.com"], [], "backend.example.com",
   [⟨"/widgets", "GET", "hits", 1⟩], none, none⟩

/-- The exported bundle of a service under an environment (empty on an
export failure; the accompanying theorems assert success separately). -/
def bundleOf (s : Service) (env : ExportEnv) : List EnvoyExport :=
  (s.export env).toOption.getD []

end ConcreteInstances

section WasmInstances

open WasmFilter

/-- A single-rule service: `GET /widgets` feeds metric `hits` by 1. -/
def svcWidgetsGet : WasmFilter.Service :=
  ⟨1, [], [], "backend.example.com", [⟨"/widgets", "GET", "hits", 1⟩]⟩

/-- The same rule with method `POST` instead. -/
def svcWidgetsPost : WasmFilter.Service :=
  ⟨1, [], [], "backend.example.com", [⟨"/widgets", "POST", "hits", 1⟩]⟩

/-- Two rules with the same metric name that both match `GET /w`. -/
def svcDup : WasmFilter.Service :=
  ⟨1, [], [], "backend.example.com",
   [⟨"/w", "GET", "hits", 1⟩, ⟨"/w", "GET", "hits", 5⟩]⟩

/-- A valid configuration document for the data-plane `Service`. -/
def okConfigJson : Json :=
  .obj [("id", .num 7), ("hosts", .arr [.str "h.example.com"]),
        ("policies", .arr []), ("target_domain", .str "t.example.com"),
        ("proxy_rules", .arr [.obj [("pattern", .str "/widgets"),
                                    ("http_method", .str "GET"),
                                    ("metric_system_name", .str "hits"),
                                    ("delta", .num 1)]])]

/-- The service `okConfigJson` parses to. -/
def okConfigService : WasmFilter.Service :=
  ⟨7, ["h.example.com"], [], "t.example.com", [⟨"/widgets", "GET", "hits", 1⟩]⟩

/-- A previously installed configuration, distinguishable from the above. -/
def priorService : WasmFilter.Service :=
  ⟨99, ["old.example.com"], [], "old-backend.example.com",
   [⟨"/old", "GET", "old_hits", 2⟩]⟩

end WasmInstances

section ClaimProps

open Controller

/-- C1's property at one input: a failed parse leaves the configuration
cell untouched, surfaces as a failure of the import call, and a subsequent
`match` behaves exactly as before. -/
def ImportRejectsInvalid (held : Bool) (input : Option Json)
    (current : WasmFilter.Service) : Prop :=
  (WasmFilter.import_config held input current).newConfig = current ∧
  (∃ e, (WasmFilter.import_config held input current).result = .error e) ∧
  (∀ method path,
    ((WasmFilter.import_config held input current).newConfig).match_mapping_rule
        method path
      = current.match_mapping_rule method path)

/-- C3's property of a successful export: the listener is the bundle's last
entry and its HTTP filter list is the JWT filter (iff `oidc_issuer` is
set), then the billing filter (iff `auth_config` is set), then the bundled
metering filter, then the router filter, which is always last. -/
def FilterChainOrdered (env : ExportEnv) (s : Service)
    (bundle : List EnvoyExport) : Prop :=
  ∃ l sha jwtPart billingPart,
    bundle.getLast? = some ⟨listenerKey s.id, .listener l⟩ ∧
    env.shaOfFile wasmFilterPath = .ok sha ∧
    ((s.oidc_issuer.isSome ∧ ∃ j, jwtPart = [jwtHttpFilter j]) ∨
      (s.oidc_issuer = none ∧ jwtPart = [])) ∧
    ((∃ a w, s.auth_config = some a ∧ a.build_wasm env s.id = .ok w ∧
        billingPart = [wasmHttpFilter w]) ∨
      (s.auth_config = none ∧ billingPart = [])) ∧
    l.httpFilters
      = jwtPart ++ billingPart ++
          [wasmHttpFilter (meteringWasm s sha), routerHttpFilter] ∧
    l.httpFilters.getLast? = some routerHttpFilter

/-- C4's property of a successful export, as amended: the bundle has
`2 + #optional adapters` entries whose keys are the primary cluster key,
then the auxiliary cluster names, then the primary listener key; each
primary key appears exactly once provided no auxiliary cluster name equals
it (the engine does not enforce that proviso). -/
def BundleCounts (s : Service) (bundle : List EnvoyExport) : Prop :=
  bundle.length
      = 2 + (if s.oidc_issuer.isSome then 1 else 0) +
            (if s.auth_config.isSome then 1 else 0) ∧
  ∃ aux : List String,
    bundle.map EnvoyExport.key = clusterKey s.id :: (aux ++ [listenerKey s.id]) ∧
    aux.length = (if s.oidc_issuer.isSome then 1 else 0) +
                 (if s.auth_config.isSome then 1 else 0) ∧
    (clusterKey s.id ∉ aux → countKey bundle (clusterKey s.id) = 1) ∧
    (listenerKey s.id ∉ aux → countKey bundle (listenerKey s.id) = 1)

/-- C8's property of a successful export, as amended: the two primary keys
differ from each other, and the whole key list is duplicate-free provided
the auxiliary cluster names are pairwise distinct and avoid the two
primary keys (the engine does not enforce that proviso). -/
def KeysDistinct (s : Service) (bundle : List EnvoyExport) : Prop :=
  clusterKey s.id ≠ listenerKey s.id ∧
  ∃ aux : List String,
    bundle.map EnvoyExport.key = clusterKey s.id :: (aux ++ [listenerKey s.id]) ∧
    (aux.Nodup → clusterKey s.id ∉ aux → listenerKey s.id ∉ aux →
      (bundle.map EnvoyExport.key).Nodup)

/-- C10's property of a successful export: the service's own routing
cluster entry is first, the listener entry is last, and the auxiliary
cluster entries sit strictly between them, identity-provider cluster
before billing backend cluster. -/
def BundleOrdered (s : Service) (bundle : List EnvoyExport) : Prop :=
  ∃ c l oidcPart authPart,
    bundle = ⟨clusterKey s.id, .cluster c⟩ ::
        (oidcPart ++ authPart ++ [⟨listenerKey s.id, .listener l⟩]) ∧
    ((s.oidc_issuer.isSome ∧ ∃ oc : Cluster, oidcPart = [⟨oc.name, .cluster oc⟩]) ∨
      (s.oidc_issuer = none ∧ oidcPart = [])) ∧
    ((s.auth_config.isSome ∧ ∃ ac : Cluster, authPart = [⟨ac.name, .cluster ac⟩]) ∨
      (s.auth_config = none ∧ authPart = []))

/-- C9's behaviour at one input, as amended: an import finding the borrow
guard held does not block and leaves the cell untouched, but the failure
is only logged — the caller receives the parsed service exactly as on the
success path. -/
def GuardHeldOutcome (input : Option Json)
    (current ws : WasmFilter.Service) : Prop :=
  (WasmFilter.import_config true input current).newConfig = current ∧
  (WasmFilter.import_config true input current).result = .ok ws ∧
  (WasmFilter.import_config true input current).loggedBorrowError = true

end ClaimProps

section WasmLemmas

open WasmFilter

theorem lookupMetric_insertMetric (m : List (String × Nat)) (k : String)
    (v : Nat) (q : String) :
    lookupMetric (insertMetric m k v) q
      = if q = k then some v else lookupMetric m q := by
  induction m with
  | nil =>
      by_cases h : q = k
      · subst h; simp [insertMetric, lookupMetric]
      · have hkq : ¬ k = q := fun e => h e.symm
        simp [insertMetric, lookupMetric, h, hkq]
  | cons p rest ih =>
      by_cases h1 : p.1 = k
      · by_cases h2 : q = k
        · subst h2; simp [insertMetric, lookupMetric, h1]
        · have hkq : ¬ k = q := fun e => h2 e.symm
          have hpq : ¬ p.1 = q := fun e => h2 (by rw [← e, h1])
          simp [insertMetric, lookupMetric, h1, h2, hkq, hpq]
      · by_cases h2 : p.1 = q
        · have hqk : ¬ q = k := fun e => h1 (by rw [h2, e])
          simp [insertMetric, lookupMetric, h1, h2, hqk]
        · simp [insertMetric, lookupMetric, h1, h2, ih]

theorem foldl_collectStep_no_match (rules : List MappingRule)
    (method path : String) (acc : List (String × Nat))
    (h : ∀ r ∈ rules, r.matches method path = false) :
    rules.foldl (collectStep method path) acc = acc := by
  induction rules generalizing acc with
  | nil => rfl
  | cons r rs ih =>
      have hr : r.matches method path = false := h r (by simp)
      simp only [List.foldl_cons, collectStep, hr, Bool.false_eq_true, if_false]
      exact ih acc (fun x hx => h x (by simp [hx]))

theorem collectMetrics_nil_of_no_match (rules : List MappingRule)
    (method path : String) (h : ∀ r ∈ rules, r.matches method path = false) :
    collectMetrics rules method path = [] :=
  foldl_collectStep_no_match rules method path [] h

theorem lookup_collectMetrics (rules : List MappingRule)
    (method path q : String) :
    lookupMetric (collectMetrics rules method path) q
      = ((rules.filter
            (fun r => r.matches method path && (r.metric_system_name == q))).getLast?).map
          MappingRule.delta := by
  induction rules using List.reverseRecOn with
  | nil => rfl
  | append_singleton rs r ih =>
      rw [collectMetrics, List.foldl_append] at *
      rw [List.filter_append]
      cases hm : r.matches method path with
      | false =>
          simp only [List.foldl_cons, List.foldl_nil, collectStep, hm,
            Bool.false_eq_true, if_false, Bool.false_and, List.filter_nil,
            List.filter_cons, List.append_nil]
          exact ih
      | true =>
          by_cases hq : r.metric_system_name = q
          · simp only [List.foldl_cons, List.foldl_nil, collectStep, hm, if_true,
              Bool.true_and, List.filter_cons, hq, beq_self_eq_true,
              List.getLast?_concat]
            rw [lookupMetric_insertMetric]
            simp [hq]
          · have hbq : (r.metric_system_name == q) = false := by
              simp [beq_iff_eq, hq]
            simp only [List.foldl_cons, List.foldl_nil, collectStep, hm, if_true,
              Bool.true_and, List.filter_cons, hbq, Bool.false_eq_true, if_false,
              List.filter_nil, List.append_nil]
            rw [lookupMetric_insertMetric]
            rw [if_neg (fun hqe => hq hqe.symm)]
            exact ih

end WasmLemmas

/-- C5: `match` tests rules by exact string equality of `http_method`
against the method and of `pattern` against the path — no prefix, glob or
regex semantics — and on the spec's example rule set `match("GET",
"/widgets")` yields `(true, {"hits": 1})` for the `GET` rule and
`(false, {})` for the `POST` variant. -/
theorem match_exact_equality :
    (∀ (r : WasmFilter.MappingRule) (method path : String),
        r.matches method path = true ↔
          (r.http_method = method ∧ r.pattern = path)) ∧
    svcWidgetsGet.match_mapping_rule "GET" "/widgets"
      = (true, "\x7b\"hits\":1\x7d") ∧
    svcWidgetsPost.match_mapping_rule "GET" "/widgets" = (false, "\x7b\x7d") := by
  refine ⟨fun r method path => ?_, rfl, rfl⟩
  by_cases h1 : r.http_method = method <;> by_cases h2 : r.pattern = path <;>
    simp [WasmFilter.MappingRule.matches, h1, h2]

/-- C6: the metrics mapping assigns to each metric name the delta of the
last matching rule in declaration order that names it — a later matching
rule overwrites an earlier one with the same name instead of summing, as
the concrete two-rule example shows (deltas 1 then 5 yield 5, not 6). -/
theorem metrics_last_write_wins :
    (∀ (s : WasmFilter.Service) (method path q : String),
        WasmFilter.lookupMetric
            (WasmFilter.collectMetrics s.proxy_rules method path) q
          = ((s.proxy_rules.filter
                (fun r => r.matches method path && (r.metric_system_name == q))).getLast?).map
              WasmFilter.MappingRule.delta) ∧
    svcDup.match_mapping_rule "GET" "/w" = (true, "\x7b\"hits\":5\x7d") :=
  ⟨fun s method path q => lookup_collectMetrics s.proxy_rules method path q, rfl⟩

/-- C7: `match` is a total function returning the matched flag and the
serialized metrics map; when no rule matches it returns exactly
`(false, "\x7b\x7d")`, as the concrete no-match example confirms. -/
theorem match_never_fails :
    (∀ (s : WasmFilter.Service) (method path : String),
        s.match_mapping_rule method path
          = (decide (0 < (WasmFilter.collectMetrics s.proxy_rules method path).length),
             WasmFilter.renderMetrics
               (WasmFilter.collectMetrics s.proxy_rules method path))) ∧
    (∀ (s : WasmFilter.Service) (method path : String),
        (∀ r ∈ s.proxy_rules, r.matches method path = false) →
          s.match_mapping_rule method path = (false, "\x7b\x7d")) ∧
    svcWidgetsGet.match_mapping_rule "GET" "/nothing" = (false, "\x7b\x7d") := by
  refine ⟨fun s method path => rfl, fun s method path h => ?_, rfl⟩
  rw [WasmFilter.Service.match_mapping_rule,
    collectMetrics_nil_of_no_match s.proxy_rules method path h]
  rfl

/-- C1: an import whose input is not a syntactically valid Service
configuration fails (the source's `unwrap` panic, surfaced as an error)
before the configuration cell is touched: the previous configuration stays
installed and a subsequent `match` behaves exactly as before; no partial
or default value is installed. -/
theorem import_config_rejects_invalid (held : Bool) (input : Option Json)
    (current : WasmFilter.Service)
    (h : WasmFilter.parseServiceConfig input = none) :
    ImportRejectsInvalid held input current := by
  unfold ImportRejectsInvalid
  simp [WasmFilter.import_config, h]

/-- C1 witness: importing the valid-JSON-but-not-a-Service text `3` over
`priorService` leaves it untouched and fails. -/
theorem import_config_rejects_invalid_witness :
    ImportRejectsInvalid false (some (Json.num 3)) priorService :=
  import_config_rejects_invalid false (some (Json.num 3)) priorService rfl

/-- C9 (amended): an import that finds the configuration cell's guard held
does not block and does not replace the configuration, but the failure is
only logged — the caller receives the parsed service exactly as on
success. -/
theorem import_guard_held_only_logs (input : Option Json)
    (current ws : WasmFilter.Service)
    (h : WasmFilter.parseServiceConfig input = some ws) :
    GuardHeldOutcome input current ws := by
  unfold GuardHeldOutcome
  simp [WasmFilter.import_config, h]

/-- C9 witness: a concrete well-formed configuration imported while the
guard is held. -/
theorem import_guard_held_only_logs_witness :
    GuardHeldOutcome (some okConfigJson) priorService okConfigService :=
  import_guard_held_only_logs (some okConfigJson) priorService okConfigService rfl

/-- C9 counterexample: with the guard held, importing a well-formed
configuration over `priorService` is *not* reported to the caller — the
call returns `.ok` with the parsed service, byte-for-byte the same result
as the unheld success path returns, and only a log line records the
failure; so the claim that the failure is reported to the caller is false
at this input. -/
theorem import_guard_held_silent_to_caller :
    WasmFilter.parseServiceConfig (some okConfigJson) = some okConfigService ∧
    (WasmFilter.import_config true (some okConfigJson) priorService).result
      = .ok okConfigService ∧
    (WasmFilter.import_config true (some okConfigJson) priorService).result
      = (WasmFilter.import_config false (some okConfigJson) priorService).result ∧
    (WasmFilter.import_config true (some okConfigJson) priorService).newConfig
      = priorService :=
  ⟨rfl, rfl, rfl, rfl⟩

section ExportLemmas

open Controller

/-- Inversion of a successful `Service::export`: each step succeeded and
the bundle is the routing-cluster entry, the optional identity-provider
cluster entry, the optional billing-backend cluster entry, and the
listener entry, in that order. -/
theorem export_ok_shape (env : ExportEnv) (s : Service)
    (bundle : List EnvoyExport)
    (h : s.export env = .ok bundle) :
    ∃ c oidcRes authRes l,
      s.export_clusters env = .ok c ∧
      ((s.oidc_issuer = none ∧ oidcRes = none) ∨
        (∃ iss p, s.oidc_issuer = some iss ∧ env.oidcExport iss s.id = .ok p ∧
          oidcRes = some p)) ∧
      ((s.auth_config = none ∧ authRes = none) ∨
        (∃ a ac, s.auth_config = some a ∧ a.cluster env = .ok ac ∧
          authRes = some ac)) ∧
      s.export_listener env (oidcRes.map (fun p => jwtHttpFilter p.1)) = .ok l ∧
      bundle = ⟨clusterKey s.id, .cluster c⟩ ::
        (oidcEntry oidcRes ++ authEntry authRes ++
          [⟨listenerKey s.id, .listener l⟩]) := by
  unfold Service.export at h
  split at h
  · exact absurd h (by simp)
  · rename_i c hc
    split at h
    · exact absurd h (by simp)
    · rename_i oidcRes hoidc
      split at h
      · exact absurd h (by simp)
      · rename_i authRes hauth
        split at h
        · exact absurd h (by simp)
        · rename_i l hl
          refine ⟨c, oidcRes, authRes, l, hc, ?_, ?_, hl, by
            simpa using h.symm⟩
          · split at hoidc
            · rename_i r hr
              cases r with
              | error e => simp [Except.map] at hoidc
              | ok p =>
                  right
                  rcases hoi : s.oidc_issuer with _ | iss
                  · rw [Service.oidc_import, hoi] at hr; simp at hr
                  · rw [Service.oidc_import, hoi] at hr
                    simp at hr
                    simp [Except.map] at hoidc
                    exact ⟨iss, p, rfl, hr, hoidc.symm⟩
            · rename_i hr
              left
              rcases hoi : s.oidc_issuer with _ | iss
              · constructor
                · rfl
                · simpa using hoidc.symm
              · rw [Service.oidc_import, hoi] at hr; simp at hr
          · split at hauth
            · rename_i a ha
              right
              cases hca : a.cluster env with
              | error e => rw [hca] at hauth; simp [Except.map] at hauth
              | ok ac =>
                  rw [hca] at hauth
                  simp [Except.map] at hauth
                  exact ⟨a, ac, ha, hca, hauth.symm⟩
            · rename_i ha
              exact Or.inl ⟨ha, by simpa using hauth.symm⟩

/-- Inversion of a successful `Service::export_listener`: the asset hash
and (when `auth_config` is set) the billing plugin build succeeded, and
the HTTP filter list is the given optional filter, the optional billing
filter, the metering filter and the router filter, in that order. -/
theorem export_listener_ok_shape (env : ExportEnv) (s : Service)
    (hf : Option HttpFilter) (l : Listener)
    (h : s.export_listener env hf = .ok l) :
    ∃ sha authWasm,
      env.shaOfFile wasmFilterPath = .ok sha ∧
      ((s.auth_config = none ∧ authWasm = none) ∨
        (∃ a w, s.auth_config = some a ∧ a.build_wasm env s.id = .ok w ∧
          authWasm = some w)) ∧
      l.httpFilters = hf.toList ++ authFilterEntry authWasm ++
        [wasmHttpFilter (meteringWasm s sha), routerHttpFilter] := by
  unfold Service.export_listener at h
  split at h
  · exact absurd h (by simp)
  · rename_i sha hsha
    split at h
    · exact absurd h (by simp)
    · rename_i authWasm hauth
      refine ⟨sha, authWasm, hsha, ?_, ?_⟩
      · split at hauth
        · rename_i a ha
          right
          cases hw : a.build_wasm env s.id with
          | error e => rw [hw] at hauth; simp [Except.map] at hauth
          | ok w =>
              rw [hw] at hauth; simp [Except.map] at hauth
              exact ⟨a, w, ha, hw, hauth.symm⟩
        · rename_i ha
          exact Or.inl ⟨ha, by simpa using hauth.symm⟩
      · simp only [Except.ok.injEq] at h
        subst h
        rfl

/-- The two primary keys of one service never coincide. -/
theorem clusterKey_ne_listenerKey (id : Nat) : clusterKey id ≠ listenerKey id := by
  intro h
  have hlen := congrArg String.length h
  simp [clusterKey, listenerKey, String.length_append] at hlen
  exact absurd hlen (by decide)

theorem getLast?_cons_shape (x y : α) (A B : List α) :
    (x :: (A ++ B ++ [y])).getLast? = some y := by
  rw [show x :: (A ++ B ++ [y]) = (x :: (A ++ B)) ++ [y] by simp]
  exact List.getLast?_concat _

theorem getLast?_filters_shape (m r : α) (A B : List α) :
    (A ++ B ++ [m, r]).getLast? = some r := by
  rw [show A ++ B ++ [m, r] = (A ++ B ++ [m]) ++ [r] by simp]
  exact List.getLast?_concat _

theorem count_head_shape (ck lk : String) (aux : List String) (hne : ck ≠ lk)
    (hnotin : ck ∉ aux) : (ck :: (aux ++ [lk])).count ck = 1 := by
  simp [List.count_cons, List.count_append, List.count_eq_zero.mpr hnotin,
    List.count_singleton, beq_iff_eq, hne, Ne.symm hne]

theorem count_last_shape (ck lk : String) (aux : List String) (hne : ck ≠ lk)
    (hnotin : lk ∉ aux) : (ck :: (aux ++ [lk])).count lk = 1 := by
  simp [List.count_cons, List.count_append, List.count_eq_zero.mpr hnotin,
    List.count_singleton, beq_iff_eq, hne, Ne.symm hne]

theorem nodup_shape (ck lk : String) (aux : List String) (hne : ck ≠ lk)
    (h1 : aux.Nodup) (h2 : ck ∉ aux) (h3 : lk ∉ aux) :
    (ck :: (aux ++ [lk])).Nodup := by
  simp [List.nodup_cons, List.nodup_append, h1, h2, h3, hne]

end ExportLemmas

section ExportClaims

open Controller

/-- C10: for every environment and service whose export succeeds, the
bundle lists the service's own routing cluster first and the listener
last, with the auxiliary clusters strictly between them — the
identity-provider cluster before the billing backend cluster. -/
theorem export_bundle_order (env : ExportEnv) (s : Service)
    (bundle : List EnvoyExport) (h : s.export env = .ok bundle) :
    BundleOrdered s bundle := by
  obtain ⟨c, oidcRes, authRes, l, hc, hoidc, hauth, hl, hb⟩ :=
    export_ok_shape env s bundle h
  refine ⟨c, l, oidcEntry oidcRes, authEntry authRes, hb, ?_, ?_⟩
  · rcases hoidc with ⟨hnone, hres⟩ | ⟨iss, p, hiss, _, hres⟩
    · exact Or.inr ⟨hnone, by rw [hres]; rfl⟩
    · exact Or.inl ⟨by rw [hiss]; rfl, ⟨p.2, by rw [hres]; rfl⟩⟩
  · rcases hauth with ⟨hnone, hres⟩ | ⟨a, ac, ha, _, hres⟩
    · exact Or.inr ⟨hnone, by rw [hres]; rfl⟩
    · exact Or.inl ⟨by rw [ha]; rfl, ⟨ac, by rw [hres]; rfl⟩⟩

/-- C10 witness: a service with both adapters set, exported under the
concrete well-behaved environment. -/
theorem export_bundle_order_witness :
    BundleOrdered svcBoth (bundleOf svcBoth envOk) :=
  export_bundle_order envOk svcBoth (bundleOf svcBoth envOk) (by rfl)

/-- C3: for every environment and service whose export succeeds, the
listener's HTTP filter list is: the JWT-authentication filter iff
`oidc_issuer` is set, then the billing filter iff `auth_config` is set,
then the bundled metering filter (always), then the router filter, which
is always the last element. -/
theorem export_filter_order (env : ExportEnv) (s : Service)
    (bundle : List EnvoyExport) (h : s.export env = .ok bundle) :
    FilterChainOrdered env s bundle := by
  obtain ⟨c, oidcRes, authRes, l, hc, hoidc, hauth, hl, hb⟩ :=
    export_ok_shape env s bundle h
  obtain ⟨sha, authWasm, hsha, hauthw, hfilters⟩ :=
    export_listener_ok_shape env s _ l hl
  refine ⟨l, sha, (oidcRes.map (fun p => jwtHttpFilter p.1)).toList,
    authFilterEntry authWasm, ?_, hsha, ?_, ?_, ?_, ?_⟩
  · rw [hb]; exact getLast?_cons_shape _ _ _ _
  · rcases hoidc with ⟨hnone, hres⟩ | ⟨iss, p, hiss, _, hres⟩
    · exact Or.inr ⟨hnone, by rw [hres]; rfl⟩
    · exact Or.inl ⟨by rw [hiss]; rfl, ⟨p.1, by rw [hres]; rfl⟩⟩
  · rcases hauthw with ⟨hnone, hres⟩ | ⟨a, w, ha, hw, hres⟩
    · exact Or.inr ⟨hnone, by rw [hres]; rfl⟩
    · exact Or.inl ⟨a, w, ha, hw, by rw [hres]; rfl⟩
  · exact hfilters
  · rw [hfilters]; exact getLast?_filters_shape _ _ _ _

/-- C3 witness: a service with both adapters set. -/
theorem export_filter_order_witness :
    FilterChainOrdered envOk svcBoth2 (bundleOf svcBoth2 envOk) :=
  export_filter_order envOk svcBoth2 (bundleOf svcBoth2 envOk) (by rfl)

/-- C4 (amended): for every environment and service whose export succeeds,
the bundle has exactly `2 + #optional adapters invoked` entries — the
primary cluster key first, the auxiliary cluster names, the primary
listener key last — and each primary key appears exactly once provided no
auxiliary cluster name equals it (a proviso the engine does not enforce:
see the counterexample). -/
theorem export_bundle_counts (env : ExportEnv) (s : Service)
    (bundle : List EnvoyExport) (h : s.export env = .ok bundle) :
    BundleCounts s bundle := by
  obtain ⟨c, oidcRes, authRes, l, hc, hoidc, hauth, hl, hb⟩ :=
    export_ok_shape env s bundle h
  constructor
  · rw [hb]
    rcases hoidc with ⟨ho, hro⟩ | ⟨iss, p, ho, hoe, hro⟩ <;>
      rcases hauth with ⟨ha, hra⟩ | ⟨a, ac, ha, hae, hra⟩ <;>
        subst hro <;> subst hra <;>
          simp [ho, ha, oidcEntry, authEntry]
  · refine ⟨(oidcEntry oidcRes ++ authEntry authRes).map EnvoyExport.key,
      ?_, ?_, ?_, ?_⟩
    · rw [hb]; simp
    · rcases hoidc with ⟨ho, hro⟩ | ⟨iss, p, ho, hoe, hro⟩ <;>
        rcases hauth with ⟨ha, hra⟩ | ⟨a, ac, ha, hae, hra⟩ <;>
          subst hro <;> subst hra <;>
            simp [ho, ha, oidcEntry, authEntry]
    · intro hnotin
      rw [countKey, hb]
      rw [show (EnvoyExport.mk (clusterKey s.id) (.cluster c) ::
          (oidcEntry oidcRes ++ authEntry authRes ++
            [⟨listenerKey s.id, .listener l⟩])).map EnvoyExport.key
        = clusterKey s.id ::
            ((oidcEntry oidcRes ++ authEntry authRes).map EnvoyExport.key ++
              [listenerKey s.id]) by simp]
      exact count_head_shape _ _ _ (clusterKey_ne_listenerKey s.id) hnotin
    · intro hnotin
      rw [countKey, hb]
      rw [show (EnvoyExport.mk (clusterKey s.id) (.cluster c) ::
          (oidcEntry oidcRes ++ authEntry authRes ++
            [⟨listenerKey s.id, .listener l⟩])).map EnvoyExport.key
        = clusterKey s.id ::
            ((oidcEntry oidcRes ++ authEntry authRes).map EnvoyExport.key ++
              [listenerKey s.id]) by simp]
      exact count_last_shape _ _ _ (clusterKey_ne_listenerKey s.id) hnotin

/-- C4 witness: a service with no optional adapter exports exactly the two
primary entries. -/
theorem export_bundle_counts_witness :
    BundleCounts svcPlain (bundleOf svcPlain envOk) :=
  export_bundle_counts envOk svcPlain (bundleOf svcPlain envOk) (by rfl)

/-- C4 counterexample: a legal billing configuration naming its backend
cluster `service::id::1::cluster` makes the export of service 1 succeed
with *two* entries keyed `service::id::1::cluster`, so the claim's
"exactly one entry keyed `service::id::<id>::cluster`" is false at this
input. -/
theorem export_duplicate_primary_key :
    Controller.Service.export svcCollide1 envOk
      = .ok (bundleOf svcCollide1 envOk) ∧
    Controller.countKey (bundleOf svcCollide1 envOk) (Controller.clusterKey 1) = 2 :=
  ⟨by rfl, by rfl⟩

/-- C8 (amended): for every environment and service whose export succeeds,
the two primary keys differ from each other, and the full key list is
duplicate-free provided the auxiliary cluster names are pairwise distinct
and avoid both primary keys (a proviso the engine does not enforce: see
the counterexample). -/
theorem export_keys_pairwise (env : ExportEnv) (s : Service)
    (bundle : List EnvoyExport) (h : s.export env = .ok bundle) :
    KeysDistinct s bundle := by
  obtain ⟨c, oidcRes, authRes, l, hc, hoidc, hauth, hl, hb⟩ :=
    export_ok_shape env s bundle h
  refine ⟨clusterKey_ne_listenerKey s.id,
    (oidcEntry oidcRes ++ authEntry authRes).map EnvoyExport.key, ?_, ?_⟩
  · rw [hb]; simp
  · intro hnd hck hlk
    rw [hb]
    rw [show (EnvoyExport.mk (clusterKey s.id) (.cluster c) ::
        (oidcEntry oidcRes ++ authEntry authRes ++
          [⟨listenerKey s.id, .listener l⟩])).map EnvoyExport.key
      = clusterKey s.id ::
          ((oidcEntry oidcRes ++ authEntry authRes).map EnvoyExport.key ++
            [listenerKey s.id]) by simp]
    exact nodup_shape _ _ _ (clusterKey_ne_listenerKey s.id) hnd hck hlk

/-- C8 witness: a service with no optional adapter. -/
theorem export_keys_pairwise_witness :
    KeysDistinct svcPlain2 (bundleOf svcPlain2 envOk) :=
  export_keys_pairwise envOk svcPlain2 (bundleOf svcPlain2 envOk) (by rfl)

/-- C8 counterexample: with a billing backend cluster legally named
`service::id::2::cluster`, the export of service 2 succeeds and its key
list holds that key twice — the keys are not pairwise distinct at this
input. -/
theorem export_colliding_keys :
    Controller.Service.export svcCollide2 envOk
      = .ok (bundleOf svcCollide2 envOk) ∧
    (bundleOf svcCollide2 envOk).map Controller.EnvoyExport.key
      = ["service::id::2::cluster", "service::id::2::cluster",
         "service::id::2::listener"] ∧
    ¬ ((bundleOf svcCollide2 envOk).map Controller.EnvoyExport.key).Nodup :=
  ⟨by rfl, by rfl, by decide⟩

/-- C2: the blob the export engine embeds in the bundled metering filter is
exactly the JSON serialization of the control-plane `Service` — but the
data-plane import cannot parse that exact blob back whenever `policies` is
non-empty, because the control plane serializes each policy as an object
while the data-plane `Service` declares `policies: Vec<String>`; the same
document with an empty policies list parses fine and reconstructs the
`proxy_rules`.  This contradicts the spec's round-trip contract, so the
mismatch is a defect of the code, exhibited here at a concrete service
with one policy. -/
theorem export_blob_not_reimportable :
    Controller.Service.export svcPolicy envOk
      = .ok (bundleOf svcPolicy envOk) ∧
    Controller.bundleMeteringBlob (bundleOf svcPolicy envOk)
      = some (.jsonText svcPolicy.toJson) ∧
    WasmFilter.parseService svcPolicy.toJson = none ∧
    WasmFilter.parseService svcNoPolicy.toJson
      = some ⟨3, ["api.example.com"], [], "backend.example.com",
              [⟨"/widgets", "GET", "hits", 1⟩]⟩ :=
  ⟨by rfl, by rfl, by rfl, by rfl⟩

end ExportClaims
